import Mathlib

/-!
Verification development for the invenio-aisearch hybrid semantic-search
engine.  The definitions below shallowly embed the Python source:

* `QueryParser` from `invenio_aisearch/query_parser.py`
* `cosine_similarity`, `SearchService.search`, `SearchService.search_by_record_id`
  from `invenio_aisearch/search_service.py` (brute-force strategy A)
* `AISearchService.search`, `AISearchService.similar`
  from `invenio_aisearch/services/service/ai_search_service.py`
  (ANN-delegated strategy B)
* the passage-pair cosine computation of `explain_similarity` in
  `invenio_aisearch/cli.py`

Strings are modelled as `List Char` (wrapped in `String` at the API),
floats as `ℚ` where only arithmetic is involved and as `ℝ` where a square
root is taken, and external collaborators (embedding model, summarizer,
OpenSearch client) as explicit function parameters returning `Except` for
fallible calls.
-/

namespace AISearch

/-- Python `\s` whitespace class (ASCII part, which is all the code meets). -/
def isSpaceChar (c : Char) : Bool :=
  c = ' ' || c = '\t' || c = '\n' || c = '\x0d' || c = '\x0b' || c = '\x0c'

/-- Python `\d` digit class (ASCII). -/
def isDigitChar (c : Char) : Bool := '0' ≤ c && c ≤ '9'

/-- Python `str.lower()` on a character sequence. -/
def lowerStr (s : List Char) : List Char := s.map Char.toLower

/-- Python `str.strip()` : drop whitespace at both ends. -/
def stripWs (s : List Char) : List Char :=
  ((s.dropWhile isSpaceChar).reverse.dropWhile isSpaceChar).reverse

/-- Python `str.replace(needle, "")` : scan left to right, removing
non-overlapping occurrences of `needle`.  The extra fuel argument (set to
the text length by `replaceAllStr`) makes the recursion structural; a
non-empty needle shortens the text by at least one character per step, so
the fuel never runs out. -/
def replaceAll (needle : List Char) : ℕ → List Char → List Char
  | 0, s => s
  | _, [] => []
  | fuel + 1, c :: rest =>
    if needle.isPrefixOf (c :: rest) then
      replaceAll needle fuel ((c :: rest).drop needle.length)
    else c :: replaceAll needle fuel rest

/-- Python `str.replace(cmd, "")` where `cmd` is a `String`. -/
def replaceAllStr (cmd : String) (s : List Char) : List Char :=
  replaceAll cmd.data s.length s

/-! ### A small regex fragment

The attribute patterns of `QueryParser.ATTRIBUTE_PATTERNS` only use literal
text, an optional group `(...)?`, a character class `[ae]` and an
alternation `(y|ies)`; `Re` embeds exactly that fragment and `reSearch`
mirrors `re.search` (match anywhere in the text). -/

inductive Re where
  | lit : List Char → Re
  | cls : List Char → Re
  | seq : Re → Re → Re
  | alt : Re → Re → Re
  | opt : Re → Re
deriving Repr

/-- All suffixes left over after matching `r` at the head of `s`
(backtracking matcher). -/
def matchRe : Re → List Char → List (List Char)
  | .lit p, s => if p.isPrefixOf s then [s.drop p.length] else []
  | .cls cs, s =>
    match s with
    | [] => []
    | c :: rest => if c ∈ cs then [rest] else []
  | .seq a b, s => (matchRe a s).flatMap (matchRe b)
  | .alt a b, s => matchRe a s ++ matchRe b s
  | .opt a, s => s :: matchRe a s

/-- Python `re.search(r, s)` : does `r` match starting at some position of `s`? -/
def reSearch (r : Re) : List Char → Bool
  | [] => !(matchRe r []).isEmpty
  | c :: rest => !(matchRe r (c :: rest)).isEmpty || reSearch r rest

/-- Literal regex from a string. -/
def rlit (s : String) : Re := .lit s.data

/-- Python `needle in haystack` for character sequences. -/
def containsSeq (needle : List Char) : List Char → Bool
  | [] => needle.isPrefixOf []
  | c :: rest => needle.isPrefixOf (c :: rest) || containsSeq needle rest

/-! ### QueryParser (query_parser.py) -/

/-- Table `QueryParser.ATTRIBUTE_PATTERNS`, in source (insertion) order. -/
def ATTRIBUTE_PATTERNS : List (String × List Re) :=
  [ ("female_protagonist",
      [rlit "female protagonist", rlit "women protagonist",
       rlit "female main character", rlit "heroine",
       rlit "strong female character"]),
    ("male_protagonist",
      [rlit "male protagonist", rlit "male main character", rlit "hero"]),
    ("author_gender_female",
      [Re.seq (rlit "by ") (Re.seq (Re.opt (rlit "a "))
         (Re.seq (rlit "wom") (Re.seq (Re.cls ['a', 'e']) (rlit "n")))),
       rlit "female author", rlit "women writer"]),
    ("genre_romance",
      [Re.seq (rlit "love stor") (Re.alt (rlit "y") (rlit "ies")),
       rlit "romance", rlit "romantic"]),
    ("genre_adventure", [rlit "adventure", rlit "quest"]),
    ("genre_tragedy", [rlit "tragic", rlit "tragedy", rlit "tragedies"]),
    ("theme_social_injustice",
      [rlit "social injustice", rlit "inequality", rlit "oppression"]),
    ("theme_war", [rlit "about war", rlit "war stories", rlit "warfare"]),
    ("era_victorian", [rlit "victorian", rlit "19th century"]) ]

/-- Table `QueryParser.ATTRIBUTE_SUBJECT_MAPPING`. -/
def ATTRIBUTE_SUBJECT_MAPPING : List (String × List String) :=
  [ ("female_protagonist", ["female", "women", "protagonist"]),
    ("male_protagonist", ["male", "protagonist"]),
    ("author_gender_female", ["women", "female"]),
    ("genre_romance", ["love", "romance"]),
    ("genre_adventure", ["adventure"]),
    ("genre_tragedy", ["tragedy", "tragic"]),
    ("theme_social_injustice", ["social", "injustice", "slavery"]),
    ("theme_war", ["war"]),
    ("era_victorian", ["victorian", "19th"]) ]

/-- Method `QueryParser._parse_intent` : fixed-priority substring checks on the
lowercased query. -/
def parse_intent (q : List Char) : String :=
  if ["how many", "count", "number of"].any (fun w => containsSeq w.data q) then
    "count"
  else if ["list all", "show all"].any (fun w => containsSeq w.data q) then
    "list"
  else
    "search"

/-- The noun stems of the limit patterns `(book|novel|stor|text|work)`. -/
def limitNouns : List (List Char) :=
  ["book".data, "novel".data, "stor".data, "text".data, "work".data]

/-- One of the noun stems occurs at the head of `s`. -/
def nounAt (s : List Char) : Bool := limitNouns.any (fun n => n.isPrefixOf s)

/-- Python `int(...)` of a digit run. -/
def natOfDigits (ds : List Char) : ℤ :=
  ds.foldl (fun n c => 10 * n + (c.toNat - '0'.toNat : ℤ)) 0

/-- Python `re.search(r"(\d+)\s*(book|novel|stor|text|work)", q)` with `group(1)`
converted by `int`.  A match of this pattern must start at a digit, and
backtracking inside `\d+` cannot help (after fewer digits the next char is a
digit, which neither `\s*` nor a noun stem consumes), so the leftmost match
takes the maximal digit run from the first digit position that is followed,
after optional whitespace, by a noun stem. -/
def numericLimit : List Char → Option ℤ
  | [] => none
  | c :: rest =>
    if isDigitChar c then
      let ds := (c :: rest).takeWhile isDigitChar
      let after := ((c :: rest).dropWhile isDigitChar).dropWhile isSpaceChar
      if nounAt after then some (natOfDigits ds) else numericLimit rest
    else numericLimit rest

/-- Does `w` (a spelled-out number) occur somewhere in `s` followed, after
optional whitespace, by a noun stem — i.e. `re.search(rf"w\s*(book|...)", s)`. -/
def wordNounSearch (w : List Char) : List Char → Bool
  | [] => w.isPrefixOf [] && nounAt (([] : List Char).dropWhile isSpaceChar)
  | c :: rest =>
    (w.isPrefixOf (c :: rest) && nounAt (((c :: rest).drop w.length).dropWhile isSpaceChar))
      || wordNounSearch w rest

/-- Table `number_words` of `QueryParser._extract_limit`, in source order. -/
def numberWords : List (List Char × ℤ) :=
  [("one".data, 1), ("two".data, 2), ("three".data, 3), ("four".data, 4),
   ("five".data, 5), ("six".data, 6), ("seven".data, 7), ("eight".data, 8),
   ("nine".data, 9), ("ten".data, 10)]

/-- Spelled-out phase of `_extract_limit` : first word (in table order) whose
pattern matches wins. -/
def wordLimit (s : List Char) : Option ℤ :=
  (numberWords.find? (fun p => wordNounSearch p.1 s)).map (fun p => p.2)

/-- Method `QueryParser._extract_limit` : numeric phase first, spelled-out phase
second, else no limit. -/
def extract_limit (s : List Char) : Option ℤ :=
  match numericLimit s with
  | some n => some n
  | none => wordLimit s

/-- The `command_words` stripped from the semantic query. -/
def command_words : List String :=
  ["show me", "find me", "get me", "give me", "list", "search for"]

/-- Result of `QueryParser.parse`.  `search_terms` is built with
`list(set(...))` in the source, whose order is unspecified; `List.dedup`
keeps first occurrences, which fixes membership and emptiness — all that is
specified. -/
structure ParsedQuery where
  original_query : String
  intent : String
  limit : Option ℤ
  attributes : List String
  search_terms : List String
  semantic_query : String
deriving Repr, DecidableEq

/-- One step of the attribute-detection loop of `parse` : when any of the
category's patterns matches, append the category name and extend the term
list with the category's subject mapping (when it has one). -/
def detectStep (query_lower : List Char) (acc : List String × List String)
    (entry : String × List Re) : List String × List String :=
  if entry.2.any (fun r => reSearch r query_lower) then
    (acc.1 ++ [entry.1],
     match ATTRIBUTE_SUBJECT_MAPPING.lookup entry.1 with
     | some ts => acc.2 ++ ts
     | none => acc.2)
  else acc

/-- The attribute-detection loop of `parse` : fold `detectStep` over the
pattern table. -/
def detectAttributes (query_lower : List Char) : List String × List String :=
  ATTRIBUTE_PATTERNS.foldl (detectStep query_lower) ([], [])

/-- Method `QueryParser.parse`. -/
def parse (query : String) : ParsedQuery :=
  let query_lower := stripWs (lowerStr query.data)
  let detected := detectAttributes query_lower
  let semantic :=
    stripWs ((command_words.foldl (fun s cmd => replaceAllStr cmd s)
      query_lower).filter (fun c => !isDigitChar c))
  { original_query := query
    intent := parse_intent query_lower
    limit := extract_limit query_lower
    attributes := detected.1
    search_terms := detected.2.dedup
    semantic_query := String.mk semantic }

/-- Method `QueryParser.get_search_strategy`. -/
def get_search_strategy (p : ParsedQuery) : String :=
  let has_attributes := 0 < p.attributes.length
  let has_search_terms := 0 < p.search_terms.length
  if has_attributes && has_search_terms then "hybrid"
  else if has_search_terms then "metadata"
  else "semantic"

/-! ### Similarity scoring (search_service.py and cli.py)

Vector components are modelled as rationals; the norm takes a real square
root, so cosine values live in `ℝ`. -/

/-- Numpy `np.dot(vec1, vec2)` for equal-length vectors (numpy truncates to the
shorter operand only in error situations the code never reaches; `zipWith`
matches the elementwise product-sum). -/
def dot_product (v1 v2 : List ℚ) : ℚ := (List.zipWith (fun a b => a * b) v1 v2).sum

/-- Numpy `np.linalg.norm(v)` : the Euclidean norm, `sqrt (dot v v)`. -/
noncomputable def np_norm (v : List ℚ) : ℝ := Real.sqrt ((dot_product v v : ℚ) : ℝ)

open Classical in
/-- Function `cosine_similarity` from `search_service.py` : guarded against
zero-norm inputs, returning exactly `0.0` there. -/
noncomputable def cosine_similarity (vec1 vec2 : List ℚ) : ℝ :=
  if np_norm vec1 = 0 ∨ np_norm vec2 = 0 then 0
  else ((dot_product vec1 vec2 : ℚ) : ℝ) / (np_norm vec1 * np_norm vec2)

open Classical in
/-- The passage-pair similarity of `explain_similarity_cmd` in `cli.py` :
`np.dot(emb1, emb2) / (np.linalg.norm(emb1) * np.linalg.norm(emb2))` with
no zero-norm guard.  When the denominator is zero the numerator is zero as
well (a zero-norm vector is the zero vector), and IEEE float division then
yields NaN rather than a real value; that outcome is modelled as `none`. -/
noncomputable def explainPassagePairSimilarity (emb1 emb2 : List ℚ) : Option ℝ :=
  if np_norm emb1 * np_norm emb2 = 0 then none
  else some (((dot_product emb1 emb2 : ℚ) : ℝ) / (np_norm emb1 * np_norm emb2))

/-- The metadata-matching score computed inline in `SearchService.search` :
fraction of `search_terms` occurring case-insensitively in the title,
`0.0` when there are no search terms. -/
def metadata_score_for (search_terms : List String) (title : String) : ℚ :=
  if search_terms = [] then 0
  else
    let title_lower := lowerStr title.data
    let nmatches := (search_terms.filter
      (fun term => containsSeq (lowerStr term.data) title_lower)).length
    (nmatches : ℚ) / (search_terms.length : ℚ)

/-- The hybrid score computed inline in `SearchService.search` :
`semantic_weight * semantic_score + metadata_weight * metadata_score`,
with no clamping or renormalization. -/
def hybrid_score (semantic_score metadata_score semantic_weight metadata_weight : ℝ) : ℝ :=
  semantic_weight * semantic_score + metadata_weight * metadata_score

/-! ### Python limit plumbing -/

/-- Python `a or b` for an optional integer `a` : `a` when it is truthy
(present and non-zero), else `b`. -/
def pyOrVal (a : Option ℤ) (b : ℤ) : ℤ :=
  match a with
  | some n => if n = 0 then b else n
  | none => b

/-- Python `l[:n]` : a non-negative bound takes a prefix, a negative bound
drops that many elements from the end. -/
def pySlice {α : Type} (n : ℤ) (l : List α) : List α :=
  if 0 ≤ n then l.take n.toNat else l.take (l.length - n.natAbs)

/-! ### SearchService (search_service.py, brute-force strategy A) -/

/-- One entry of the loaded embeddings mapping : `record_id -> {embedding, title}`. -/
structure RecordData where
  embedding : List ℚ
  title : String
deriving DecidableEq

/-- The loaded embeddings mapping, in dict (insertion) order. -/
abbrev EmbTable := List (String × RecordData)

/-- One scored entry of `SearchService.search` results.  The outer `Option`
on `summary` is `none` when the `summary` key was never added (summaries
not requested); `some none` models Python `None` after a failed
summarization. -/
structure ResultItemA where
  record_id : String
  title : String
  semantic_score : ℝ
  metadata_score : ℚ
  hybrid_score : ℝ
  summary : Option (Option String) := none

/-- Return value of `SearchService.search`. -/
structure SearchResultA where
  query : String
  parsed : ParsedQuery
  results : List ResultItemA
  total : ℕ

open Classical in
/-- Sort key of `results.sort(key=lambda x: x["hybrid_score"], reverse=True)` :
stable descending order by hybrid score. -/
noncomputable def hybridDesc (a b : ResultItemA) : Bool :=
  decide (b.hybrid_score ≤ a.hybrid_score)

/-- Body of `SearchService.search` after the emptiness guard.  `embed` is
`model_manager.generate_embedding`, `summarize` is
`model_manager.generate_summary` (fallible). -/
noncomputable def searchBodyA (embeddings : EmbTable) (query : String)
    (limit : Option ℤ) (include_summaries : Bool)
    (semantic_weight metadata_weight : ℝ)
    (embed : String → List ℚ) (summarize : String → Except String String) :
    SearchResultA :=
  let parsed := parse query
  let query_embedding := embed parsed.semantic_query
  let results := embeddings.map (fun e =>
    let semantic_score := cosine_similarity query_embedding e.2.embedding
    let metadata_score := metadata_score_for parsed.search_terms e.2.title
    ({ record_id := e.1
       title := e.2.title
       semantic_score := semantic_score
       metadata_score := metadata_score
       hybrid_score :=
         hybrid_score semantic_score (metadata_score : ℝ) semantic_weight metadata_weight
     } : ResultItemA))
  let sorted := results.mergeSort hybridDesc
  let result_limit := pyOrVal limit (pyOrVal parsed.limit 10)
  let limited := pySlice result_limit sorted
  let final :=
    if include_summaries then
      limited.map (fun r =>
        let s := summarize ("A classic work titled \x27" ++ r.title ++ "\x27")
        { r with summary := some s.toOption })
    else limited
  { query := query, parsed := parsed, results := final, total := final.length }

/-- Method `SearchService.search` : raises `ValueError` when no embeddings are
loaded, otherwise runs the scoring pipeline. -/
noncomputable def searchServiceSearch (embeddings : EmbTable) (query : String)
    (limit : Option ℤ) (include_summaries : Bool)
    (semantic_weight metadata_weight : ℝ)
    (embed : String → List ℚ) (summarize : String → Except String String) :
    Except String SearchResultA :=
  if embeddings.isEmpty then
    .error "No embeddings loaded. Call load_embeddings() first."
  else
    .ok (searchBodyA embeddings query limit include_summaries
      semantic_weight metadata_weight embed summarize)

/-- One entry of `SearchService.search_by_record_id` results. -/
structure SimilarItemA where
  record_id : String
  title : String
  similarity : ℝ

open Classical in
/-- Sort key of `results.sort(key=lambda x: x["similarity"], reverse=True)`. -/
noncomputable def similarityDesc (a b : SimilarItemA) : Bool :=
  decide (b.similarity ≤ a.similarity)

/-- Body of `SearchService.search_by_record_id` after the guards : score
every other record against the source embedding, sort descending, truncate. -/
noncomputable def searchByRecordIdBody (embeddings : EmbTable)
    (record_id : String) (limit : ℤ) (source_embedding : List ℚ) :
    List SimilarItemA :=
  let results := (embeddings.filter (fun e => e.1 ≠ record_id)).map (fun e =>
    ({ record_id := e.1
       title := e.2.title
       similarity := cosine_similarity source_embedding e.2.embedding
     } : SimilarItemA))
  pySlice limit (results.mergeSort similarityDesc)

/-- Method `SearchService.search_by_record_id` : raises `ValueError` when no
embeddings are loaded or the record id is absent from the mapping. -/
noncomputable def search_by_record_id (embeddings : EmbTable)
    (record_id : String) (limit : ℤ) : Except String (List SimilarItemA) :=
  if embeddings.isEmpty then
    .error "No embeddings loaded. Call load_embeddings() first."
  else
    match embeddings.lookup record_id with
    | none => .error ("Record " ++ record_id ++ " not found in embeddings")
    | some data =>
      .ok (searchByRecordIdBody embeddings record_id limit data.embedding)

/-! ### AISearchService (ai_search_service.py, ANN-delegated strategy B)

The OpenSearch client is an external collaborator; a k-NN call is modelled
as a function from query vector and size to `Except` of a hit list, and
the source-record fetch of `similar` as an `Except` of the (at most one
element) hit list the term query returns. -/

/-- The `getattr(self.config, ..., default)` configuration surface. -/
structure AIConfig where
  default_limit : ℤ := 10
  max_limit : ℤ := 100
  enable_summaries : Bool := true
  summary_max_length : ℕ := 150
  summary_min_length : ℕ := 50

/-- Parsed `_source` document of an OpenSearch hit; `none` models a missing
JSON key. `creators` holds each creator's `person_or_org.name`. -/
structure DocMetadata where
  title : Option String := none
  creators : List (Option String) := []
  publication_date : Option String := none
  resource_type_title : Option String := none
  license_title : Option String := none
  description : Option String := none
deriving DecidableEq

/-- An OpenSearch `_source` payload. -/
structure SourceDoc where
  id : Option String := none
  metadata : DocMetadata := {}
  access_record : Option String := none
  aisearch_embedding : Option (List ℚ) := none
deriving DecidableEq

/-- An OpenSearch hit : `_source` plus `_score` (the k-NN similarity). -/
structure Hit where
  source : SourceDoc
  score : ℚ
deriving DecidableEq

/-- One result item built by `AISearchService` : `summary = none` models the
`summary` key being absent (summaries disabled). -/
structure ResultItemB where
  record_id : Option String
  title : String
  creators : List String
  publication_date : String
  resource_type : String
  license : Option String
  access_status : String
  similarity_score : ℚ
  summary : Option String := none
deriving DecidableEq

/-- Return value of `AISearchService.search`. -/
structure SearchResultB where
  query : String
  parsed : ParsedQuery
  results : List ResultItemB
  total : ℕ
deriving DecidableEq

/-- Return value of `AISearchService.similar`. -/
structure SimilarResultB where
  record_id : String
  similar : List ResultItemB
  total : ℕ
  source_title : Option String := none
  source_creators : List String := []
deriving DecidableEq

/-- The limit resolution of `AISearchService.search` :
`limit or parsed.get("limit") or default_limit`, then `min(_, max_limit)`. -/
def aiResolveLimit (cfg : AIConfig) (limit parsedLimit : Option ℤ) : ℤ :=
  min (pyOrVal limit (pyOrVal parsedLimit cfg.default_limit)) cfg.max_limit

/-- The field extraction shared by `search` and `similar` when turning a
hit into a result item (defaults mirror the `.get(..., default)` chains). -/
def buildItem (hit : Hit) : ResultItemB :=
  { record_id := hit.source.id
    title := hit.source.metadata.title.getD "Untitled"
    creators := hit.source.metadata.creators.map (fun c => c.getD "Unknown")
    publication_date := hit.source.metadata.publication_date.getD ""
    resource_type := hit.source.metadata.resource_type_title.getD "Unknown"
    license := hit.source.metadata.license_title
    access_status := hit.source.access_record.getD "restricted"
    similarity_score := hit.score }

/-- Summary enrichment of one hit in `AISearchService.search` : a long
description (over 500 characters) is summarized — with NO exception
handler, so a summarizer failure propagates — a short one is used verbatim,
and the title is the fallback when there is no description. -/
def aiEnrichItem (cfg : AIConfig)
    (summarize : String → ℕ → ℕ → Except String String)
    (hit : Hit) (item : ResultItemB) : Except String ResultItemB :=
  match hit.source.metadata.description with
  | some description =>
    if 500 < description.length then
      (summarize description cfg.summary_max_length cfg.summary_min_length).map
        (fun s => { item with summary := some s })
    else .ok { item with summary := some description }
  | none => .ok { item with summary := some item.title }

/-- One iteration of the hit loop of `AISearchService.search` : build the
result item and, when summaries are requested and enabled, enrich it. -/
def aiProcessHit (cfg : AIConfig) (include_summaries : Bool)
    (summarize : String → ℕ → ℕ → Except String String) (hit : Hit) :
    Except String ResultItemB :=
  let item := buildItem hit
  if include_summaries && cfg.enable_summaries then
    aiEnrichItem cfg summarize hit item
  else .ok item

/-- Method `AISearchService.search`.  `knn` is the OpenSearch k-NN call (given the
query vector and the requested size/k); a failing k-NN query is caught and
degraded to an empty result, but a failing summarization inside the hit
loop is not caught and aborts the call. -/
def aiSearch (cfg : AIConfig) (query : String) (limit : Option ℤ)
    (include_summaries : Bool) (embed : String → List ℚ)
    (knn : List ℚ → ℤ → Except String (List Hit))
    (summarize : String → ℕ → ℕ → Except String String) :
    Except String SearchResultB :=
  let parsed := parse query
  let query_embedding := embed query
  let result_limit := aiResolveLimit cfg limit parsed.limit
  match knn query_embedding result_limit with
  | .error _ =>
    .ok { query := query, parsed := parsed, results := [], total := 0 }
  | .ok hits => do
    let results ← hits.mapM (aiProcessHit cfg include_summaries summarize)
    .ok { query := query, parsed := parsed, results := results,
          total := results.length }

/-- The hit loop of `AISearchService.similar` : skip the source record,
append the built item, and break once `limit` items are collected (the
check runs after the append, so a non-positive limit still yields one
item). -/
def similarLoop (record_id : String) (limit : ℤ) :
    List Hit → List ResultItemB → List ResultItemB
  | [], acc => acc
  | hit :: rest, acc =>
    if hit.source.id = some record_id then similarLoop record_id limit rest acc
    else
      let acc2 := acc ++ [buildItem hit]
      if limit ≤ (acc2.length : ℤ) then acc2
      else similarLoop record_id limit rest acc2

/-- The empty `SimilarResult` every degraded path of `similar` returns. -/
def emptySimilar (record_id : String) : SimilarResultB :=
  { record_id := record_id, similar := [], total := 0 }

/-- Method `AISearchService.similar`.  Every failure — fetch error, record absent,
record without a (non-empty) embedding, k-NN error — is caught and
surfaces as a NORMAL empty `SimilarResult`; no path raises.  `fetch` is
the term query for the source record (its hit list), `knn` the k-NN call,
invoked with `limit + 1` to account for the source record. -/
def aiSimilar (record_id : String) (limit : ℤ)
    (fetch : Except String (List SourceDoc))
    (knn : List ℚ → ℤ → Except String (List Hit)) : SimilarResultB :=
  match fetch with
  | .error _ => emptySimilar record_id
  | .ok [] => emptySimilar record_id
  | .ok (sourceDoc :: _) =>
    match sourceDoc.aisearch_embedding with
    | none => emptySimilar record_id
    | some source_embedding =>
      if source_embedding.isEmpty then emptySimilar record_id
      else
        let source_title := sourceDoc.metadata.title.getD "Untitled"
        let source_creators :=
          sourceDoc.metadata.creators.map (fun c => c.getD "Unknown")
        match knn source_embedding (limit + 1) with
        | .error _ => emptySimilar record_id
        | .ok hits =>
          let similar_records := similarLoop record_id limit hits []
          { record_id := record_id
            similar := similar_records
            total := similar_records.length
            source_title := some source_title
            source_creators := source_creators }

/-! ### Helper lemmas -/

/-- A vector's self dot product (its squared norm) is non-negative. -/
theorem dot_product_self_nonneg (v : List ℚ) : 0 ≤ dot_product v v := by
  induction v with
  | nil => simp [dot_product]
  | cons a t ih =>
    have h : dot_product (a :: t) (a :: t) = a * a + dot_product t t := by
      simp [dot_product]
    rw [h]
    nlinarith [ih]

/-- The Euclidean norm vanishes exactly when the squared norm does. -/
theorem np_norm_eq_zero_iff (v : List ℚ) :
    np_norm v = 0 ↔ dot_product v v = 0 := by
  unfold np_norm
  rw [Real.sqrt_eq_zero (by exact_mod_cast dot_product_self_nonneg v)]
  exact_mod_cast Iff.rfl

/-! ### C8 — hybrid score -/

/-- C8: `hybrid_score` equals `semantic_weight * semantic + metadata_weight
* metadata` with no clamping or renormalization (even when the weights do
not sum to 1), and is monotone non-decreasing in the semantic score when
`semantic_weight` is positive and in the metadata score when
`metadata_weight` is positive. -/
theorem hybrid_score_linear_and_monotone :
    (∀ s m sw mw : ℝ, hybrid_score s m sw mw = sw * s + mw * m) ∧
    (∀ m sw mw s1 s2 : ℝ, 0 < sw → s1 ≤ s2 →
      hybrid_score s1 m sw mw ≤ hybrid_score s2 m sw mw) ∧
    (∀ s sw mw m1 m2 : ℝ, 0 < mw → m1 ≤ m2 →
      hybrid_score s m1 sw mw ≤ hybrid_score s m2 sw mw) := by
  refine ⟨fun s m sw mw => rfl, ?_, ?_⟩
  · intro m sw mw s1 s2 hsw h
    unfold hybrid_score
    have := mul_le_mul_of_nonneg_left h hsw.le
    linarith
  · intro s sw mw m1 m2 hmw h
    unfold hybrid_score
    have := mul_le_mul_of_nonneg_left h hmw.le
    linarith

/-- C8 witness: the monotonicity conjuncts applied at concrete inputs
(weights 2 and 3, scores 1 ≤ 5). -/
theorem hybrid_score_linear_and_monotone_witness :
    ((0:ℝ) < 2 ∧ (1:ℝ) ≤ 5 ∧
      hybrid_score 1 4 2 3 ≤ hybrid_score 5 4 2 3) ∧
    ((0:ℝ) < 3 ∧ hybrid_score 4 1 2 3 ≤ hybrid_score 4 5 2 3) :=
  ⟨⟨by norm_num, by norm_num,
    hybrid_score_linear_and_monotone.2.1 4 2 3 1 5 (by norm_num) (by norm_num)⟩,
   ⟨by norm_num,
    hybrid_score_linear_and_monotone.2.2 4 2 3 1 5 (by norm_num) (by norm_num)⟩⟩

/-! ### C3 — limit extraction range -/

/-- C3 counterexample: the numeric phase of `_extract_limit` does not clamp
to 1..10 — the query text `"show me 15 books"` yields the limit 15. -/
theorem parse_limit_fifteen :
    (parse "show me 15 books").limit = some 15 ∧ ¬((15 : ℤ) ≤ 10) := by
  constructor
  · decide
  · decide

/-- Every spelled-out number of the limit table lies between 1 and 10. -/
theorem numberWords_range : ∀ p ∈ numberWords, 1 ≤ p.2 ∧ p.2 ≤ 10 := by
  decide

/-- C3 (amended): a limit extracted by the spelled-out phase of
`_extract_limit` lies between 1 and 10, but a limit extracted by the
numeric phase is the literal integer value of the digits with no range
restriction; hence every extracted limit either comes from the numeric
phase or lies in 1..10. -/
theorem parse_limit_range (q : String) (n : ℤ)
    (h : (parse q).limit = some n) :
    numericLimit (stripWs (lowerStr q.data)) = some n ∨ (1 ≤ n ∧ n ≤ 10) := by
  have hq : extract_limit (stripWs (lowerStr q.data)) = some n := h
  unfold extract_limit at hq
  cases hnum : numericLimit (stripWs (lowerStr q.data)) with
  | some m =>
    rw [hnum] at hq
    exact Or.inl hq
  | none =>
    rw [hnum] at hq
    right
    unfold wordLimit at hq
    cases hf : numberWords.find? (fun p => wordNounSearch p.1 (stripWs (lowerStr q.data))) with
    | none => rw [hf] at hq; simp at hq
    | some p =>
      rw [hf] at hq
      simp only [Option.map_some] at hq
      have hp := List.mem_of_find?_eq_some hf
      have h2 := numberWords_range p hp
      have h3 : p.2 = n := Option.some.inj hq
      omega

/-- C3 witness: the amended claim applied to the query
`"find three books"`, whose limit 3 comes from the spelled-out phase. -/
theorem parse_limit_range_witness :
    (parse "find three books").limit = some 3 ∧
    (numericLimit (stripWs (lowerStr "find three books".data)) = some 3 ∨
      (1 ≤ (3 : ℤ) ∧ (3 : ℤ) ≤ 10)) :=
  ⟨by decide, parse_limit_range "find three books" 3 (by decide)⟩

/-! ### C6 — cosine similarity at zero norm -/

/-- C6 counterexample: the passage-pair similarity of `explain_similarity`
divides by the product of the norms with no zero-norm guard, so a zero
passage embedding yields NaN (no real value), not the 0.0 the claim
requires everywhere. -/
theorem explain_pair_zero_vector_nan :
    explainPassagePairSimilarity [0, 0] [1, 1] = none := by
  have hz : np_norm [0, 0] = 0 := by
    rw [np_norm_eq_zero_iff]
    norm_num [dot_product]
  unfold explainPassagePairSimilarity
  rw [if_pos (by rw [hz, zero_mul])]

/-- C6 (amended): `cosine_similarity` in `search_service.py` returns
exactly 0.0 whenever either vector's norm is zero, but the passage-level
cross-product of the SimilarityExplainer (`cli.py`) computes the ratio
unguarded and yields NaN (no real value) in that case. -/
theorem cosine_zero_norm_policy (v w : List ℚ)
    (h : dot_product v v = 0 ∨ dot_product w w = 0) :
    cosine_similarity v w = 0 ∧ explainPassagePairSimilarity v w = none := by
  have hz : np_norm v = 0 ∨ np_norm w = 0 := by
    rcases h with h | h
    · exact Or.inl ((np_norm_eq_zero_iff v).mpr h)
    · exact Or.inr ((np_norm_eq_zero_iff w).mpr h)
  constructor
  · unfold cosine_similarity
    rw [if_pos hz]
  · unfold explainPassagePairSimilarity
    rw [if_pos]
    rcases hz with hz | hz
    · rw [hz, zero_mul]
    · rw [hz, mul_zero]

/-- C6 witness: the amended claim applied to the zero vector `[0, 0]`
against `[1, 2]`. -/
theorem cosine_zero_norm_policy_witness :
    dot_product [0, 0] [0, 0] = 0 ∧
    (cosine_similarity [0, 0] [1, 2] = 0 ∧
      explainPassagePairSimilarity [0, 0] [1, 2] = none) :=
  ⟨by norm_num [dot_product], cosine_zero_norm_policy [0, 0] [1, 2]
    (Or.inl (by norm_num [dot_product]))⟩

/-! ### C9 — end-to-end parse scenario -/

/-- C9: parsing `"show me 3 books with female protagonists"` yields intent
`search`, limit 3, an attribute list containing `female_protagonist`,
search terms containing `female`, `women` and `protagonist`, and the
semantic query `"books with female protagonists"` (command phrase and
digits stripped). -/
theorem parse_show_me_three_books :
    (parse "show me 3 books with female protagonists").intent = "search" ∧
    (parse "show me 3 books with female protagonists").limit = some 3 ∧
    "female_protagonist" ∈ (parse "show me 3 books with female protagonists").attributes ∧
    "female" ∈ (parse "show me 3 books with female protagonists").search_terms ∧
    "women" ∈ (parse "show me 3 books with female protagonists").search_terms ∧
    "protagonist" ∈ (parse "show me 3 books with female protagonists").search_terms ∧
    (parse "show me 3 books with female protagonists").semantic_query =
      "books with female protagonists" := by
  decide

/-! ### C10 — strategy is never "metadata" -/

/-- Every attribute category of the pattern table has a non-empty subject
term mapping. -/
theorem mapping_ok :
    ∀ e ∈ ATTRIBUTE_PATTERNS,
      ∃ ts, ATTRIBUTE_SUBJECT_MAPPING.lookup e.1 = some ts ∧ ts ≠ [] := by
  intro e he
  simp only [ATTRIBUTE_PATTERNS, List.mem_cons, List.not_mem_nil, or_false] at he
  rcases he with rfl | rfl | rfl | rfl | rfl | rfl | rfl | rfl | rfl
  all_goals exact ⟨_, rfl, by simp⟩

/-- The attribute-detection fold keeps the attribute list and the term list
empty or non-empty together, provided every table entry has a non-empty
term mapping. -/
theorem detectFold_empty_iff (ql : List Char) :
    ∀ (table : List (String × List Re)) (acc : List String × List String),
      (∀ e ∈ table, ∃ ts, ATTRIBUTE_SUBJECT_MAPPING.lookup e.1 = some ts ∧ ts ≠ []) →
      (acc.1 = [] ↔ acc.2 = []) →
      ((table.foldl (detectStep ql) acc).1 = [] ↔
        (table.foldl (detectStep ql) acc).2 = []) := by
  intro table
  induction table with
  | nil => intro acc _ hacc; simpa using hacc
  | cons e t ih =>
    intro acc hmap hacc
    simp only [List.foldl_cons]
    apply ih
    · intro x hx
      exact hmap x (List.mem_cons_of_mem e hx)
    · unfold detectStep
      by_cases hdet : (e.2.any (fun r => reSearch r ql)) = true
      · rw [if_pos hdet]
        obtain ⟨ts, hts, htsne⟩ := hmap e (List.mem_cons_self e t)
        simp only [hts]
        simp [List.append_eq_nil, htsne]
      · rw [if_neg hdet]
        exact hacc

/-- C10: for every query, `get_search_strategy` applied to `parse` output
returns `"hybrid"` or `"semantic"`, never `"metadata"` — parse adds search
terms exactly when it records an attribute and every attribute category
maps to at least one term, so the attribute list and the search-term list
are empty or non-empty together. -/
theorem parse_strategy_never_metadata (q : String) :
    (get_search_strategy (parse q) = "hybrid" ∨
      get_search_strategy (parse q) = "semantic") ∧
    ((parse q).attributes = [] ↔ (parse q).search_terms = []) := by
  have hiff : (parse q).attributes = [] ↔ (parse q).search_terms = [] := by
    rw [show (parse q).attributes =
          (detectAttributes (stripWs (lowerStr q.data))).1 from rfl,
        show (parse q).search_terms =
          (detectAttributes (stripWs (lowerStr q.data))).2.dedup from rfl,
        List.dedup_eq_nil]
    exact detectFold_empty_iff _ ATTRIBUTE_PATTERNS ([], []) mapping_ok (by simp)
  refine ⟨?_, hiff⟩
  by_cases h : (parse q).search_terms = []
  · right
    have ha : (parse q).attributes = [] := hiff.mpr h
    simp [get_search_strategy, h, ha]
  · left
    have ha : (parse q).attributes ≠ [] := fun hh => h (hiff.mp hh)
    have h1 : 0 < (parse q).attributes.length := List.length_pos.mpr ha
    have h2 : 0 < (parse q).search_terms.length := List.length_pos.mpr h
    simp [get_search_strategy, h1, h2]

/-! ### C1 — missing record / missing embedding in `similar` -/

/-- C1 counterexample: `AISearchService.similar` for a record absent from
the index (empty fetch result), and for a record present but without an
embedding, returns a NORMAL empty `SimilarResult` — it does not fail with
NotFound. -/
theorem aiSimilar_absent_is_normal_result :
    aiSimilar "X" 5 (Except.ok []) (fun _ _ => Except.ok []) = emptySimilar "X" ∧
    aiSimilar "X" 5 (Except.ok [{ id := some "X" }]) (fun _ _ => Except.ok []) =
      emptySimilar "X" := by
  constructor <;> rfl

/-- C1 (amended): the brute-force `SearchService.search_by_record_id`
raises an error when the record id is absent from the loaded embeddings,
but the ANN-backed `AISearchService.similar` returns a normal empty
`SimilarResult` (similar = [], total = 0) both when the record is absent
and when it has no stored embedding. -/
theorem similar_missing_record_policy :
    (∀ (rid : String) (l : ℤ) (knn : List ℚ → ℤ → Except String (List Hit)),
       aiSimilar rid l (Except.ok []) knn = emptySimilar rid) ∧
    (∀ (rid : String) (l : ℤ) (knn : List ℚ → ℤ → Except String (List Hit))
       (doc : SourceDoc) (docs : List SourceDoc),
       doc.aisearch_embedding = none →
       aiSimilar rid l (Except.ok (doc :: docs)) knn = emptySimilar rid) ∧
    (∀ (emb : EmbTable) (rid : String) (l : ℤ),
       emb.isEmpty = false → emb.lookup rid = none →
       search_by_record_id emb rid l =
         Except.error ("Record " ++ rid ++ " not found in embeddings")) := by
  refine ⟨fun rid l knn => rfl, ?_, ?_⟩
  · intro rid l knn doc docs h
    simp [aiSimilar, h]
  · intro emb rid l he hl
    simp [search_by_record_id, he, hl]

/-- C1 witness: the amended claim applied to a one-record embeddings table
without the id `"Y"`, and to a fetch result whose document has no
embedding. -/
theorem similar_missing_record_policy_witness :
    (({ id := some "Y" } : SourceDoc).aisearch_embedding = none ∧
      aiSimilar "Y" 3 (Except.ok [{ id := some "Y" }]) (fun _ _ => Except.ok []) =
        emptySimilar "Y") ∧
    (([("A", ⟨[], "t"⟩)] : EmbTable).isEmpty = false ∧
      ([("A", ⟨[], "t"⟩)] : EmbTable).lookup "Y" = none ∧
      search_by_record_id [("A", ⟨[], "t"⟩)] "Y" 3 =
        Except.error ("Record " ++ "Y" ++ " not found in embeddings")) :=
  ⟨⟨rfl, similar_missing_record_policy.2.1 "Y" 3 _ _ [] rfl⟩,
   ⟨rfl, by decide,
    similar_missing_record_policy.2.2 [("A", ⟨[], "t"⟩)] "Y" 3 rfl (by decide)⟩⟩

/-! ### C2 — empty/unconfigured backend -/

/-- C2 counterexample: the brute-force `SearchService.search` RAISES
(ValueError) on an empty embeddings table instead of returning an empty
result. -/
theorem searchService_empty_backend_raises :
    searchServiceSearch [] "machine learning" none false 0.7 0.3
      (fun _ => []) (fun _ => Except.error "unused") =
    Except.error "No embeddings loaded. Call load_embeddings() first." := rfl

/-- C2 (amended): the ANN-backed `AISearchService.search` returns
`results = []`, `total = 0` without raising both when the backend k-NN
query fails and when it returns no hits; the brute-force
`SearchService.search` instead raises an error when no embeddings are
loaded. -/
theorem empty_backend_policy :
    (∀ (cfg : AIConfig) (q : String) (limit : Option ℤ) (incl : Bool)
       (embed : String → List ℚ)
       (summarize : String → ℕ → ℕ → Except String String) (msg : String),
       aiSearch cfg q limit incl embed (fun _ _ => Except.error msg) summarize =
         Except.ok { query := q, parsed := parse q, results := [], total := 0 }) ∧
    (∀ (cfg : AIConfig) (q : String) (limit : Option ℤ) (incl : Bool)
       (embed : String → List ℚ)
       (summarize : String → ℕ → ℕ → Except String String),
       aiSearch cfg q limit incl embed (fun _ _ => Except.ok []) summarize =
         Except.ok { query := q, parsed := parse q, results := [], total := 0 }) ∧
    (∀ (q : String) (limit : Option ℤ) (incl : Bool) (sw mw : ℝ)
       (embed : String → List ℚ) (summarize : String → Except String String),
       searchServiceSearch [] q limit incl sw mw embed summarize =
         Except.error "No embeddings loaded. Call load_embeddings() first.") :=
  ⟨fun _ _ _ _ _ _ _ => rfl, fun _ _ _ _ _ _ => rfl, fun _ _ _ _ _ _ _ => rfl⟩

/-! ### C4 — limit resolution and cap -/

/-- A 101-record embeddings table (ids "0" .. "100"). -/
def bigTable : EmbTable :=
  (List.range 101).map (fun i => (toString i, ⟨[], "t"⟩))

/-- C4 counterexample: `SearchService.search` applies no maximum cap — an
explicit limit of 1000 over a 101-record table returns all 101 results,
more than the configured maximum (100) the claim requires everywhere. -/
theorem searchService_limit_uncapped :
    (searchServiceSearch bigTable "q" (some 1000) false 0 0 (fun _ => [])
      (fun _ => Except.error "unused")).map (fun r => r.results.length) =
      Except.ok 101 ∧ 100 < 101 := by
  refine ⟨?_, by norm_num⟩
  have hne : bigTable.isEmpty = false := rfl
  simp only [searchServiceSearch, hne, Bool.false_eq_true, if_false, Except.map]
  simp [searchBodyA, pySlice, pyOrVal, List.length_take,
    List.length_mergeSort, List.length_map, bigTable, List.length_range]

/-- C4 (amended): both services resolve the limit as explicit argument >
parsed query limit > default, treating an absent or zero value as not
given; `AISearchService.search` then caps the result at
`config.max_limit`, while `SearchService.search` applies no maximum — its
result size is bounded only by the requested limit and the table size. -/
theorem limit_resolution_policy :
    (∀ (cfg : AIConfig) (l p : Option ℤ), aiResolveLimit cfg l p ≤ cfg.max_limit) ∧
    (∀ (cfg : AIConfig) (n : ℤ) (p : Option ℤ), n ≠ 0 →
       aiResolveLimit cfg (some n) p = min n cfg.max_limit) ∧
    (∀ (cfg : AIConfig) (n : ℤ), n ≠ 0 →
       aiResolveLimit cfg none (some n) = min n cfg.max_limit) ∧
    (∀ cfg : AIConfig,
       aiResolveLimit cfg none none = min cfg.default_limit cfg.max_limit) ∧
    (∀ (n : ℤ) (p : Option ℤ), n ≠ 0 → pyOrVal (some n) (pyOrVal p 10) = n) ∧
    (∀ (emb : EmbTable) (q : String) (n : ℤ) (incl : Bool) (sw mw : ℝ)
       (embed : String → List ℚ) (summarize : String → Except String String),
       0 < n → emb.isEmpty = false →
       (searchServiceSearch emb q (some n) incl sw mw embed summarize).map
         (fun r => r.results.length) = Except.ok (min n.toNat emb.length)) := by
  refine ⟨fun cfg l p => min_le_right _ _, ?_, ?_, ?_, ?_, ?_⟩
  · intro cfg n p hn
    simp [aiResolveLimit, pyOrVal, hn]
  · intro cfg n hn
    simp [aiResolveLimit, pyOrVal, hn]
  · intro cfg
    simp [aiResolveLimit, pyOrVal]
  · intro n p hn
    simp [pyOrVal, hn]
  · intro emb q n incl sw mw embed summarize hn he
    simp only [searchServiceSearch, he, Bool.false_eq_true, if_false, Except.map]
    have hres : pyOrVal (some n) (pyOrVal (parse q).limit 10) = n := by
      simp [pyOrVal, hn.ne.symm]
    cases incl <;>
      simp [searchBodyA, hres, pySlice, hn.le, List.length_take,
        List.length_mergeSort, List.length_map]

/-- C4 witness: the amended claim applied with explicit limit 5 against
the default configuration, and explicit limit 2 against a one-record
table. -/
theorem limit_resolution_policy_witness :
    ((5 : ℤ) ≠ 0 ∧
      aiResolveLimit {} (some 5) none = min 5 ({} : AIConfig).max_limit) ∧
    ((0 : ℤ) < 2 ∧ ([("A", ⟨[], "t"⟩)] : EmbTable).isEmpty = false ∧
      (searchServiceSearch [("A", ⟨[], "t"⟩)] "q" (some 2) false 0 0
        (fun _ => []) (fun _ => Except.error "u")).map
        (fun r => r.results.length) = Except.ok (min (2 : ℤ).toNat 1)) :=
  ⟨⟨by norm_num, limit_resolution_policy.2.1 {} 5 none (by norm_num)⟩,
   ⟨by norm_num, rfl,
    limit_resolution_policy.2.2.2.2.2 [("A", ⟨[], "t"⟩)] "q" 2 false 0 0
      (fun _ => []) (fun _ => Except.error "u") (by norm_num) rfl⟩⟩

/-! ### C5 — summary failure isolation -/

/-- Mapping `mapM` over `Except` aborts as soon as the head fails. -/
theorem mapM_head_error {α β : Type} (f : α → Except String β) (msg : String)
    (a : α) (l : List α) (h : f a = Except.error msg) :
    List.mapM f (a :: l) = Except.error msg := by
  simp only [List.mapM, List.mapM.loop, h]
  rfl

/-- A 501-character description, long enough to trigger summarization. -/
def longDesc : String := String.mk (List.replicate 501 'a')

/-- A hit whose record carries the long description. -/
def hitLong : Hit :=
  { source := { id := some "R1", metadata := { description := some longDesc } }
    score := 1 }

set_option maxRecDepth 8000 in
/-- C5 counterexample: in `AISearchService.search` a failing summarizer is
NOT caught — the whole call aborts with the error instead of returning the
other results with a null summary. -/
theorem aiSearch_summary_failure_aborts :
    aiSearch {} "classic" (some 1) true (fun _ => [])
      (fun _ _ => Except.ok [hitLong])
      (fun _ _ _ => Except.error "summarizer down") =
    Except.error "summarizer down" := by
  rfl

/-- C5 (amended): in the brute-force `SearchService.search` a summary
failure is caught per candidate — that candidate's summary becomes None
and as many results are returned as without summaries; in the ANN-backed
`AISearchService.search` a summary failure inside the hit loop is not
caught and aborts the whole call. -/
theorem summary_failure_policy :
    (∀ (emb : EmbTable) (q : String) (l : Option ℤ) (sw mw : ℝ)
       (embed : String → List ℚ) (msg : String),
       ∀ x ∈ (searchBodyA emb q l true sw mw embed
           (fun _ => Except.error msg)).results,
         x.summary = some none) ∧
    (∀ (emb : EmbTable) (q : String) (l : Option ℤ) (sw mw : ℝ)
       (embed : String → List ℚ) (summarize : String → Except String String),
       (searchBodyA emb q l true sw mw embed summarize).results.length =
       (searchBodyA emb q l false sw mw embed summarize).results.length) ∧
    (∀ (cfg : AIConfig) (q : String) (l : Option ℤ) (embed : String → List ℚ)
       (hit : Hit) (hits : List Hit) (msg : String),
       cfg.enable_summaries = true →
       500 < (hit.source.metadata.description.getD "").length →
       aiSearch cfg q l true embed (fun _ _ => Except.ok (hit :: hits))
         (fun _ _ _ => Except.error msg) = Except.error msg) := by
  refine ⟨?_, ?_, ?_⟩
  · intro emb q l sw mw embed msg x hx
    simp only [searchBodyA, if_true] at hx
    obtain ⟨r, _, rfl⟩ := List.mem_map.mp hx
    rfl
  · intro emb q l sw mw embed summarize
    simp [searchBodyA, List.length_map]
  · intro cfg q l embed hit hits msg hsum hlen
    cases hdesc : hit.source.metadata.description with
    | none => rw [hdesc] at hlen; simp at hlen
    | some d =>
      rw [hdesc] at hlen
      simp only [Option.getD_some] at hlen
      have hF : aiProcessHit cfg true (fun _ _ _ => Except.error msg) hit =
          Except.error msg := by
        simp [aiProcessHit, hsum, aiEnrichItem, hdesc, hlen, Except.map]
      simp only [aiSearch]
      rw [mapM_head_error _ msg hit hits hF]
      rfl

set_option maxRecDepth 8000 in
/-- C5 witness: the amended claim's abort conjunct applied to the default
configuration and the long-description hit with a constantly failing
summarizer. -/
theorem summary_failure_policy_witness :
    ({} : AIConfig).enable_summaries = true ∧
    500 < (hitLong.source.metadata.description.getD "").length ∧
    aiSearch {} "q2" (some 1) true (fun _ => [])
      (fun _ _ => Except.ok [hitLong]) (fun _ _ _ => Except.error "m") =
      Except.error "m" :=
  ⟨rfl, by decide,
   summary_failure_policy.2.2 {} "q2" (some 1) (fun _ => []) hitLong [] "m"
     rfl (by decide)⟩

/-! ### C7 — similar results never contain the source record -/

/-- Membership in a Python slice implies membership in the list. -/
theorem mem_pySlice {α : Type} {n : ℤ} {l : List α} {x : α}
    (h : x ∈ pySlice n l) : x ∈ l := by
  unfold pySlice at h
  split at h <;> exact List.mem_of_mem_take h

/-- The hit loop of `similar` never adds an item whose record id is the
source id. -/
theorem similarLoop_not_source (rid : String) (l : ℤ) :
    ∀ (hits : List Hit) (acc : List ResultItemB),
      (∀ x ∈ acc, x.record_id ≠ some rid) →
      ∀ x ∈ similarLoop rid l hits acc, x.record_id ≠ some rid := by
  intro hits
  induction hits with
  | nil => intro acc hacc x hx; exact hacc x hx
  | cons hit rest ih =>
    intro acc hacc x hx
    simp only [similarLoop] at hx
    by_cases hid : hit.source.id = some rid
    · rw [if_pos hid] at hx
      exact ih acc hacc x hx
    · rw [if_neg hid] at hx
      have hacc2 : ∀ y ∈ acc ++ [buildItem hit], y.record_id ≠ some rid := by
        intro y hy
        rcases List.mem_append.mp hy with h | h
        · exact hacc y h
        · rcases List.mem_singleton.mp h with rfl
          simpa [buildItem] using hid
      by_cases hl : l ≤ ((acc ++ [buildItem hit]).length : ℤ)
      · rw [if_pos hl] at hx
        exact hacc2 x hx
      · rw [if_neg hl] at hx
        exact ih _ hacc2 x hx

/-- C7: neither `SearchService.search_by_record_id` (which skips the source
id while scanning the table) nor `AISearchService.similar` (which skips it
while consuming k-NN hits) ever returns an entry whose record id equals
the input record id. -/
theorem similar_results_exclude_source :
    (∀ (emb : EmbTable) (rid : String) (l : ℤ) (src : List ℚ),
       ∀ x ∈ searchByRecordIdBody emb rid l src, x.record_id ≠ rid) ∧
    (∀ (rid : String) (l : ℤ) (fetch : Except String (List SourceDoc))
       (knn : List ℚ → ℤ → Except String (List Hit)),
       ∀ x ∈ (aiSimilar rid l fetch knn).similar, x.record_id ≠ some rid) := by
  constructor
  · intro emb rid l src x hx
    unfold searchByRecordIdBody at hx
    have hx2 := List.mem_mergeSort.mp (mem_pySlice hx)
    obtain ⟨e, he, rfl⟩ := List.mem_map.mp hx2
    have hf := (List.mem_filter.mp he).2
    simpa using of_decide_eq_true hf
  · intro rid l fetch knn x hx
    rcases fetch with msg | docs
    · simp [aiSimilar, emptySimilar] at hx
    · cases docs with
      | nil => simp [aiSimilar, emptySimilar] at hx
      | cons d ds =>
        cases hemb : d.aisearch_embedding with
        | none => simp [aiSimilar, emptySimilar, hemb] at hx
        | some emb =>
          by_cases hne : emb.isEmpty
          · simp [aiSimilar, emptySimilar, hemb, hne] at hx
          · cases hknn : knn emb (l + 1) with
            | error m =>
              simp [aiSimilar, emptySimilar, hemb, hne, hknn] at hx
            | ok hits =>
              simp only [aiSimilar, hemb, hne, hknn, Bool.false_eq_true,
                if_false] at hx
              exact similarLoop_not_source rid l hits [] (by simp) x hx

/-- C7 witness: the two conjuncts applied to a two-record table with
source `"A"`, and to a k-NN response containing the source record `"A"`
itself plus record `"B"`. -/
theorem similar_results_exclude_source_witness :
    (({ record_id := "B", title := "t", similarity := cosine_similarity [1] [1] } :
        SimilarItemA) ∈
      searchByRecordIdBody [("A", ⟨[1], "s"⟩), ("B", ⟨[1], "t"⟩)] "A" 10 [1] ∧
      ("B" : String) ≠ "A") ∧
    (buildItem { source := { id := some "B" }, score := 1 } ∈
      (aiSimilar "A" 2
        (Except.ok [{ id := some "A", aisearch_embedding := some [1] }])
        (fun _ _ => Except.ok
          [{ source := { id := some "A" }, score := 2 },
           { source := { id := some "B" }, score := 1 }])).similar ∧
      (buildItem { source := { id := some "B" }, score := 1 }).record_id ≠
        some "A") := by
  constructor
  · constructor
    · simp [searchByRecordIdBody, pySlice]
    · exact fun h =>
        similar_results_exclude_source.1
          [("A", ⟨[1], "s"⟩), ("B", ⟨[1], "t"⟩)] "A" 10 [1]
          { record_id := "B", title := "t",
            similarity := cosine_similarity [1] [1] }
          (by simp [searchByRecordIdBody, pySlice]) (by simp [h])
  · constructor
    · decide
    · exact similar_results_exclude_source.2 "A" 2
        (Except.ok [{ id := some "A", aisearch_embedding := some [1] }])
        (fun _ _ => Except.ok
          [{ source := { id := some "A" }, score := 2 },
           { source := { id := some "B" }, score := 1 }])
        (buildItem { source := { id := some "B" }, score := 1 }) (by decide)

end AISearch
